import Mathlib

/-!
Shallow embedding of the Mockbuster movie-rental API core
(repository / service / handler layers) and proofs of the
specification claims about it.

Source files embedded:
* `internal/service/film_service.go` — film service validation and
  default pagination,
* `internal/repository/film_repository.go` — SQL query construction,
  pagination, counting, ordering,
* `internal/repository/comment_repository.go` — comment insertion and
  retrieval with film-existence checks,
* `internal/repository/errors.go` — the `ErrFilmNotFound` sentinel,
* `internal/service/comment_service.go` — comment validation,
* `internal/handlers/film_handlers.go` — query-string parsing and
  HTTP status mapping.

The relational store is embedded as an explicit state value; SQL
statements are embedded by their row-level semantics (filter /
distinct / order / limit / offset over lists).  Go `error` values are
embedded as an inductive type with `fmt.Errorf("...: %w", err)`
wrapping, and `errors.Is(err, ErrFilmNotFound)` as a recursive
identity test through the wrap chain.
-/

namespace Mockbuster

/-! ### Go error values

`GoError.filmNotFound` embeds the package-level sentinel
`repository.ErrFilmNotFound` (errors.go line 6).  `errNew msg` embeds
`errors.New(msg)` — a fresh error value that is never identical to
the sentinel, whatever its text.  `wrapf msg cause` embeds
`fmt.Errorf(msg + ": %w", cause)`. -/

inductive GoError where
  | filmNotFound
  | errNew (msg : String)
  | wrapf (msg : String) (cause : GoError)
  deriving DecidableEq

instance exceptDecEq {ε α : Type} [DecidableEq ε] [DecidableEq α] :
    DecidableEq (Except ε α)
  | .ok a, .ok b => decidable_of_iff (a = b) (by simp)
  | .ok _, .error _ => isFalse (by simp)
  | .error _, .ok _ => isFalse (by simp)
  | .error a, .error b => decidable_of_iff (a = b) (by simp)

/-- `errors.Is(e, repository.ErrFilmNotFound)`: identity against the
sentinel, unwrapping `%w` wrappers.  Text is never inspected. -/
def GoError.isNotFound : GoError → Bool
  | .filmNotFound => true
  | .errNew _ => false
  | .wrapf _ cause => cause.isNotFound

/-- Whether an error is a `fmt.Errorf` contextual wrapper. -/
def GoError.isWrapped : GoError → Bool
  | .wrapf _ _ => true
  | _ => false

/-- Contextual wrapping added by a stack of intermediate layers: each
message in the list wraps the error once more with `%w`. -/
def wrapAll (msgs : List String) (e : GoError) : GoError :=
  msgs.foldr (fun m acc => GoError.wrapf m acc) e

/-! ### Go string primitives

Go strings are byte strings; `len(s)` is the UTF-8 byte length. -/

/-- Go `len(s)`: the UTF-8 byte length of the string. -/
def goLen (s : String) : Nat := (s.toList.map Char.utf8Size).sum

/-- Code-point comparison used to embed SQL `ORDER BY` on text
columns: lexicographic order on the code points. -/
def strLeAux : List Char → List Char → Bool
  | [], _ => true
  | _ :: _, [] => false
  | a :: as, b :: bs =>
    if a.toNat < b.toNat then true
    else if b.toNat < a.toNat then false
    else strLeAux as bs

/-- `a ≤ b` for SQL text ordering. -/
def strLe (a b : String) : Bool := strLeAux a.toList b.toList

/-- ASCII-folded characters, embedding the case-insensitivity of
`ILIKE`. -/
def lowerStr (s : String) : List Char := s.toList.map Char.toLower

/-- `needle` occurs at the head of `hay`. -/
def hasPre : List Char → List Char → Bool
  | _, [] => true
  | [], _ :: _ => false
  | a :: as, b :: bs => a == b && hasPre as bs

/-- `needle` occurs somewhere in `hay`. -/
def hasSub : List Char → List Char → Bool
  | [], needle => hasPre [] needle
  | a :: t, needle => hasPre (a :: t) needle || hasSub t needle

/-- `col ILIKE '%' || pat || '%'` for a pattern with no SQL
metacharacters: case-insensitive substring test. -/
def ilike (s pat : String) : Bool := hasSub (lowerStr s) (lowerStr pat)

/-- `strconv.Atoi`: optional sign, at least one ASCII digit, nothing
else, and the value must fit a 64-bit `int` (out-of-range input makes
`Atoi` return a non-nil error, which the handler treats like any
other parse failure). -/
def parseDigits : List Char → Nat → Option Nat
  | [], acc => some acc
  | c :: cs, acc =>
    if c.isDigit then parseDigits cs (acc * 10 + (c.toNat - 48)) else none

/-- Digits of a non-empty all-digit string, as a natural number. -/
def parseDigitsNE : List Char → Option Nat
  | [] => none
  | cs => parseDigits cs 0

/-- 64-bit range check of `strconv.Atoi`. -/
def fitsInt64 (v : Int) : Bool := -(2 ^ 63) ≤ v && v ≤ 2 ^ 63 - 1

/-- Go `strconv.Atoi(s)`: `some v` iff `Atoi` returns `(v, nil)`. -/
def goAtoi (s : String) : Option Int :=
  let signed : Option Int :=
    match s.toList with
    | '+' :: cs => (parseDigitsNE cs).map (fun n => (n : Int))
    | '-' :: cs => (parseDigitsNE cs).map (fun n => -(n : Int))
    | cs => (parseDigitsNE cs).map (fun n => (n : Int))
  match signed with
  | some v => if fitsInt64 v then some v else none
  | none => none

/-! ### Domain model (`internal/models/models.go`) -/

/-- `models.FilmFilters`. -/
structure FilmFilters where
  Title : String
  Rating : String
  Category : String
  Page : Int
  Limit : Int
  deriving DecidableEq

/-- The columns of a `film` row that participate in filtering,
ordering and identification (`film_id`, `title`, `rating`); the
remaining payload columns play no role in any claim. -/
structure FilmRow where
  filmID : Int
  title : String
  rating : String
  deriving DecidableEq

/-- `models.Category`. -/
structure CategoryRow where
  categoryID : Int
  name : String
  deriving DecidableEq

/-- A `film_comments` row (`models.Comment`); `createdAt` is the
insertion timestamp, embedded as an integer clock value. -/
structure CommentRow where
  id : Int
  filmID : Int
  customerName : String
  comment : String
  createdAt : Int
  deriving DecidableEq

/-- `models.CommentRequest`. -/
structure CommentRequest where
  customerName : String
  comment : String
  deriving DecidableEq

/-- `models.FilmListResponse` (films carried as their filter-relevant
columns). -/
structure FilmListResponse where
  Films : List FilmRow
  Total : Int
  Page : Int
  Limit : Int
  deriving DecidableEq

/-- The relational store: the pre-existing reference tables plus the
`film_comments` table and its serial counter.  `filmCategories id`
is the list of category names joined to a film through
`film_category`. -/
structure DBState where
  films : List FilmRow
  filmCategories : Int → List String
  categories : List CategoryRow
  comments : List CommentRow
  nextCommentID : Int

/-! ### Film service (`internal/service/film_service.go`) -/

/-- The `validRatings` map literal of `validateFilters`
(film_service.go lines 87–89): membership test by key. -/
def validRating (r : String) : Bool :=
  r == "G" || r == "PG" || r == "PG-13" || r == "R" || r == "NC-17"

/-- `filmServiceImpl.validateFilters` (film_service.go lines 78–96):
`some msg` embeds `errors.New(msg)`, `none` embeds `nil`. -/
def validateFilters (f : FilmFilters) : Option String :=
  if f.Page < 1 then some "page must be greater than 0"
  else if f.Limit < 1 ∨ f.Limit > 100 then some "limit must be between 1 and 100"
  else if f.Rating ≠ "" then
    if validRating f.Rating then none
    else some "invalid rating provided"
  else none

/-- `filmServiceImpl.applyDefaultPagination` (film_service.go lines
99–106), as a pure update of the filters value. -/
def applyDefaultPagination (f : FilmFilters) : FilmFilters :=
  let f1 := if f.Page ≤ 0 then { f with Page := 1 } else f
  if f1.Limit ≤ 0 then { f1 with Limit := 10 } else f1

namespace FilmService

/-- `filmServiceImpl.GetFilms` (film_service.go lines 26–42),
parameterized by the injected repository: validate, then apply
default pagination, then delegate. -/
def GetFilms (repo : FilmFilters → Except GoError FilmListResponse)
    (filters : FilmFilters) : Except GoError FilmListResponse :=
  match validateFilters filters with
  | some msg => .error (.errNew msg)
  | none => repo (applyDefaultPagination filters)

end FilmService

/-! ### Film repository (`internal/repository/film_repository.go`),
over the failure-free store `DBState` -/

namespace FilmRepository

/-- `FilmRepository.normalizePagination` (lines 48–55). -/
def normalizePagination (f : FilmFilters) : FilmFilters :=
  let f1 := if f.Limit ≤ 0 then { f with Limit := 10 } else f
  if f1.Page ≤ 0 then { f1 with Page := 1 } else f1

/-- The `WHERE` clause built by `buildFilmsQuery` (lines 72–88): each
predicate is added only when the corresponding filter is non-empty.
The category predicate ranges over the film's joined category names
(a row with no matching category name is dropped, as the `NULL`
produced by the `LEFT JOIN` fails `ILIKE`). -/
def filmMatches (st : DBState) (f : FilmFilters) (r : FilmRow) : Bool :=
  (f.Title == "" || ilike r.title f.Title) &&
  (f.Rating == "" || r.rating == f.Rating) &&
  (f.Category == "" || (st.filmCategories r.filmID).any (fun c => ilike c f.Category))

/-- The films satisfying the `WHERE` clause. -/
def matchingFilms (st : DBState) (f : FilmFilters) : List FilmRow :=
  st.films.filter (filmMatches st f)

/-- `SELECT DISTINCT` over the selected film columns. -/
def distinctRows (l : List FilmRow) : List FilmRow := l.dedup

/-- `ORDER BY f.title` as a relation on film rows. -/
def titleLe (a b : FilmRow) : Prop := strLe a.title b.title = true

instance : DecidableRel titleLe := fun a b => by
  unfold titleLe; infer_instance

/-- `ORDER BY f.title`, realized as a stable sort. -/
def sortByTitle (l : List FilmRow) : List FilmRow :=
  List.insertionSort titleLe l

/-- Wrap-around of Go's 64-bit `int` arithmetic: the value reduced
into `[-2^63, 2^63)` modulo `2^64`. -/
def wrap64 (v : Int) : Int := (v + 2 ^ 63) % 2 ^ 64 - 2 ^ 63

/-- `offset := (filters.Page - 1) * filters.Limit` (line 90),
computed in Go's 64-bit `int`: the multiplication wraps. -/
def queryOffset (f : FilmFilters) : Int := wrap64 ((f.Page - 1) * f.Limit)

/-- The outcome of the query built by `buildFilmsQuery` (lines
58–96): distinct matching films in title order, then
`LIMIT limit OFFSET offset` with the int64-wrapped offset.  When the
wrapped offset is negative, Postgres rejects the query
(`OFFSET must not be negative`) and `executeFilmsQuery` returns the
wrapped driver error. -/
def buildFilmsQueryResult (st : DBState) (f : FilmFilters) :
    Except GoError (List FilmRow) :=
  if queryOffset f < 0 then
    .error (.wrapf "error querying films"
      (.errNew "pq: OFFSET must not be negative"))
  else
    .ok (((sortByTitle (distinctRows (matchingFilms st f))).drop
      (queryOffset f).toNat).take f.Limit.toNat)

/-- `FilmRepository.getFilmsCount` (lines 159–196):
`COUNT(DISTINCT f.film_id)` under the same `WHERE` clause, with no
limit or offset. -/
def getFilmsCount (st : DBState) (f : FilmFilters) : Nat :=
  ((matchingFilms st f).map (fun r => r.filmID)).dedup.length

/-- `FilmRepository.GetFilms` (lines 25–45): normalize pagination,
run the page query (propagating its failure), then the count query,
and echo the (normalized) page and limit. -/
def GetFilms (st : DBState) (filters : FilmFilters) :
    Except GoError FilmListResponse :=
  let nf := normalizePagination filters
  match buildFilmsQueryResult st nf with
  | .error e => .error e
  | .ok films =>
    .ok { Films := films
          Total := (getFilmsCount st nf : Int)
          Page := nf.Page
          Limit := nf.Limit }

/-- `ORDER BY name` on categories. -/
def catLe (a b : CategoryRow) : Prop := strLe a.name b.name = true

instance : DecidableRel catLe := fun a b => by
  unfold catLe; infer_instance

/-- `FilmRepository.GetCategories` (lines 312–336):
`SELECT category_id, name FROM category ORDER BY name`. -/
def GetCategories (st : DBState) : List CategoryRow :=
  List.insertionSort catLe st.categories

/-- `FilmRepository.GetFilmByID` (lines 199–243) restricted to the
failure-free store: the row with the given primary key if present,
`ErrFilmNotFound` otherwise.  (The error plumbing of the fallible
query path is embedded separately below as `GetFilmByIDQ`.) -/
def GetFilmByIDDB (st : DBState) (filmID : Int) : Except GoError FilmRow :=
  match st.films.find? (fun r => r.filmID == filmID) with
  | some r => .ok r
  | none => .error .filmNotFound

end FilmRepository

/-! ### Film repository, fallible query layer

For the error-classification claim the driver is abstracted as an
environment of query outcomes: the primary-key lookup can find a
row, find no row (`sql.ErrNoRows`), or fail with a driver error; the
category and actor queries can return their rows or fail.  Query,
scan and iteration failures of one statement are collapsed into a
single failure outcome, which the repository wraps exactly as the
source does. -/

/-- Outcome of `QueryRowContext(...).Scan(...)`. -/
inductive ScanOutcome (α : Type) where
  | found (a : α)
  | noRows
  | scanFail (e : GoError)
  deriving DecidableEq

/-- The driver-level outcomes seen by `GetFilmByID` and its two
enrichment queries. -/
structure FilmQueryEnv where
  filmRow : Int → ScanOutcome FilmRow
  catRows : Int → Except GoError (List String)
  actorRows : Int → Except GoError (List String)

namespace FilmRepository

/-- `FilmRepository.getFilmCategories` (lines 246–276): wraps any
driver failure with context. -/
def getFilmCategoriesQ (env : FilmQueryEnv) (filmID : Int) :
    Except GoError (List String) :=
  match env.catRows filmID with
  | .error e => .error (.wrapf "error querying film categories" e)
  | .ok l => .ok l

/-- `FilmRepository.getFilmActors` (lines 279–309). -/
def getFilmActorsQ (env : FilmQueryEnv) (filmID : Int) :
    Except GoError (List String) :=
  match env.actorRows filmID with
  | .error e => .error (.wrapf "error querying film actors" e)
  | .ok l => .ok l

/-- `FilmRepository.GetFilmByID` (lines 199–243) over the fallible
query layer: `sql.ErrNoRows` becomes the `ErrFilmNotFound` sentinel,
any other scan failure is wrapped as `"error querying film: %w"`,
and the film is enriched with its categories and actors. -/
def GetFilmByIDQ (env : FilmQueryEnv) (filmID : Int) :
    Except GoError (FilmRow × List String × List String) :=
  match env.filmRow filmID with
  | .noRows => .error .filmNotFound
  | .scanFail e => .error (.wrapf "error querying film" e)
  | .found film =>
    match getFilmCategoriesQ env filmID with
    | .error e => .error e
    | .ok cats =>
      match getFilmActorsQ env filmID with
      | .error e => .error e
      | .ok acts => .ok (film, cats, acts)

end FilmRepository

/-! ### Comment repository (`internal/repository/comment_repository.go`) -/

/-- `SELECT EXISTS(SELECT 1 FROM film WHERE film_id = $1)`. -/
def filmExists (st : DBState) (filmID : Int) : Bool :=
  st.films.any (fun r => r.filmID == filmID)

namespace CommentRepository

/-- `CommentRepository.AddComment` (lines 24–52): check film
existence first; if absent fail with `ErrFilmNotFound` and leave the
store untouched; otherwise insert a row with the serial id and the
server-assigned timestamp `now`, and return the inserted entity. -/
def AddComment (st : DBState) (filmID : Int) (req : CommentRequest)
    (now : Int) : Except GoError CommentRow × DBState :=
  if filmExists st filmID then
    let c : CommentRow :=
      { id := st.nextCommentID, filmID := filmID,
        customerName := req.customerName, comment := req.comment,
        createdAt := now }
    (.ok c, { st with comments := st.comments ++ [c],
                      nextCommentID := st.nextCommentID + 1 })
  else
    (.error .filmNotFound, st)

/-- `ORDER BY created_at DESC` on comments. -/
def createdDesc (a b : CommentRow) : Prop := b.createdAt ≤ a.createdAt

instance : DecidableRel createdDesc := fun a b => by
  unfold createdDesc; infer_instance

/-- `CommentRepository.GetCommentsByFilmID` (lines 55–94): check film
existence first; if absent fail with `ErrFilmNotFound`; otherwise
return the film's comments ordered by creation timestamp
descending. -/
def GetCommentsByFilmID (st : DBState) (filmID : Int) :
    Except GoError (List CommentRow) :=
  if filmExists st filmID then
    .ok (List.insertionSort createdDesc
      (st.comments.filter (fun c => c.filmID == filmID)))
  else
    .error .filmNotFound

end CommentRepository

/-! ### Comment service (`internal/service/comment_service.go`) -/

/-- `commentServiceImpl.validateComment` (comment_service.go lines
317–338): the four checks in source order, first failure wins;
lengths are Go `len` (bytes). -/
def validateComment (req : CommentRequest) : Option String :=
  if req.customerName = "" then some "customer name is required"
  else if goLen req.customerName > 100 then
    some "customer name too long (max 100 characters)"
  else if req.comment = "" then some "comment text is required"
  else if goLen req.comment > 1000 then
    some "comment text too long (max 1000 characters)"
  else none

namespace CommentService

/-- `commentServiceImpl.AddComment` (comment_service.go lines
256–288): reject non-positive ids, validate the request, confirm the
film exists through `filmRepo.GetFilmByID`, then delegate the insert
to the comment repository.  The store is threaded explicitly so that
"no insert happened" is the equality of the result state with the
input state. -/
def AddComment (st : DBState) (filmID : Int) (req : CommentRequest)
    (now : Int) : Except GoError CommentRow × DBState :=
  if filmID ≤ 0 then (.error (.errNew "invalid film ID"), st)
  else
    match validateComment req with
    | some msg => (.error (.errNew msg), st)
    | none =>
      match FilmRepository.GetFilmByIDDB st filmID with
      | .error e => (.error e, st)
      | .ok _ => CommentRepository.AddComment st filmID req now

end CommentService

/-! ### HTTP handlers (`internal/handlers/film_handlers.go`) -/

/-- The query string of a film-listing request, as read by
`r.URL.Query().Get` (absent parameters read as `""`). -/
structure QueryParams where
  title : String
  rating : String
  category : String
  page : String
  limit : String
  deriving DecidableEq

/-- The filter parsing of `FilmHandler.GetFilms` (film_handlers.go
lines 37–64): an absent, non-numeric or non-positive `page` becomes
1, an absent, non-numeric or non-positive `limit` becomes 10; any
positive parsed value is passed through. -/
def parseFilmFilters (q : QueryParams) : FilmFilters :=
  let page : Int :=
    if q.page ≠ "" then
      match goAtoi q.page with
      | some p => if p > 0 then p else 1
      | none => 1
    else 1
  let lim : Int :=
    if q.limit ≠ "" then
      match goAtoi q.limit with
      | some l => if l > 0 then l else 10
      | none => 10
    else 10
  { Title := q.title, Rating := q.rating, Category := q.category,
    Page := page, Limit := lim }

/-- The status code produced by `FilmHandler.GetFilms`
(film_handlers.go lines 37–74): every service error — validation
errors included — is answered with
`respondWithError(w, http.StatusInternalServerError, ...)`. -/
def handlerGetFilmsStatus
    (repo : FilmFilters → Except GoError FilmListResponse)
    (q : QueryParams) : Nat :=
  match FilmService.GetFilms repo (parseFilmFilters q) with
  | .error _ => 500
  | .ok _ => 200

/-- The status code produced by `FilmHandler.GetFilmByID`
(film_handlers.go lines 77–96): non-numeric path id → 400 before any
service call; `ErrFilmNotFound` → 404; other service errors → 500. -/
def handlerGetFilmByIDStatus (svc : Int → Except GoError FilmRow)
    (idStr : String) : Nat :=
  match goAtoi idStr with
  | none => 400
  | some filmID =>
    match svc filmID with
    | .error e => if e.isNotFound then 404 else 500
    | .ok _ => 200

/-! ### Helper lemmas -/

theorem strLeAux_head_le {a b : Char} {as bs : List Char}
    (h : strLeAux (a :: as) (b :: bs) = true) : a.toNat ≤ b.toNat := by
  by_cases h1 : a.toNat < b.toNat
  · omega
  · by_cases h2 : b.toNat < a.toNat
    · simp [strLeAux, h1, h2] at h
    · omega

theorem strLeAux_total (as bs : List Char) :
    strLeAux as bs = true ∨ strLeAux bs as = true := by
  induction as generalizing bs with
  | nil => left; rfl
  | cons a as ih =>
    cases bs with
    | nil => right; rfl
    | cons b bs =>
      by_cases h1 : a.toNat < b.toNat
      · left; simp [strLeAux, h1]
      · by_cases h2 : b.toNat < a.toNat
        · right; simp [strLeAux, h2, h1]
        · rcases ih bs with h | h
          · left; simp [strLeAux, h1, h2, h]
          · right; simp [strLeAux, h1, h2, h]

theorem strLeAux_trans (as bs cs : List Char)
    (h1 : strLeAux as bs = true) (h2 : strLeAux bs cs = true) :
    strLeAux as cs = true := by
  induction as generalizing bs cs with
  | nil => rfl
  | cons a as ih =>
    cases bs with
    | nil => simp [strLeAux] at h1
    | cons b bs =>
      cases cs with
      | nil => simp [strLeAux] at h2
      | cons c cs =>
        have hab := strLeAux_head_le h1
        have hbc := strLeAux_head_le h2
        by_cases hac : a.toNat < c.toNat
        · simp [strLeAux, hac]
        · have hca : ¬ c.toNat < a.toNat := by omega
          have haeb : a.toNat = b.toNat := by omega
          have hbec : b.toNat = c.toNat := by omega
          have h1' : strLeAux as bs = true := by
            simpa [strLeAux, haeb] using h1
          have h2' : strLeAux bs cs = true := by
            simpa [strLeAux, hbec] using h2
          simpa [strLeAux, hac, hca] using ih bs cs h1' h2'

theorem strLe_total (a b : String) : strLe a b = true ∨ strLe b a = true :=
  strLeAux_total a.toList b.toList

theorem strLe_trans (a b c : String) (h1 : strLe a b = true)
    (h2 : strLe b c = true) : strLe a c = true :=
  strLeAux_trans a.toList b.toList c.toList h1 h2

theorem sortByTitle_pairwise (l : List FilmRow) :
    List.Pairwise FilmRepository.titleLe (FilmRepository.sortByTitle l) :=
  @List.sorted_insertionSort _ FilmRepository.titleLe _
    ⟨fun a b => strLe_total a.title b.title⟩
    ⟨fun a b c => strLe_trans a.title b.title c.title⟩ l

theorem sortByTitle_perm (l : List FilmRow) :
    (FilmRepository.sortByTitle l).Perm l :=
  List.perm_insertionSort _ l

theorem getCategories_pairwise (st : DBState) :
    List.Pairwise FilmRepository.catLe (FilmRepository.GetCategories st) :=
  @List.sorted_insertionSort _ FilmRepository.catLe _
    ⟨fun a b => strLe_total a.name b.name⟩
    ⟨fun a b c => strLe_trans a.name b.name c.name⟩ st.categories

theorem sortComments_pairwise (l : List CommentRow) :
    List.Pairwise CommentRepository.createdDesc
      (List.insertionSort CommentRepository.createdDesc l) :=
  @List.sorted_insertionSort _ CommentRepository.createdDesc _
    ⟨fun a b => Int.le_total b.createdAt a.createdAt⟩
    ⟨fun _ _ _ hab hbc => le_trans hbc hab⟩ l

theorem normalizePagination_bounds (f : FilmFilters) :
    1 ≤ (FilmRepository.normalizePagination f).Page ∧
    1 ≤ (FilmRepository.normalizePagination f).Limit := by
  unfold FilmRepository.normalizePagination
  dsimp only
  split <;> split <;> simp_all <;> omega

theorem normalizePagination_fields (f : FilmFilters) :
    (FilmRepository.normalizePagination f).Title = f.Title ∧
    (FilmRepository.normalizePagination f).Rating = f.Rating ∧
    (FilmRepository.normalizePagination f).Category = f.Category := by
  unfold FilmRepository.normalizePagination
  dsimp only
  split <;> split <;> exact ⟨rfl, rfl, rfl⟩

theorem filmMatches_normalize (st : DBState) (f : FilmFilters) :
    FilmRepository.filmMatches st (FilmRepository.normalizePagination f) =
      FilmRepository.filmMatches st f := by
  funext r
  unfold FilmRepository.filmMatches
  rw [(normalizePagination_fields f).1, (normalizePagination_fields f).2.1,
    (normalizePagination_fields f).2.2]

theorem filmMatches_pagination_invariant (st : DBState) (f : FilmFilters)
    (p l : Int) :
    FilmRepository.filmMatches st { f with Page := p, Limit := l } =
      FilmRepository.filmMatches st f := rfl

theorem getFilmsCount_normalize (st : DBState) (f : FilmFilters) :
    FilmRepository.getFilmsCount st (FilmRepository.normalizePagination f) =
      FilmRepository.getFilmsCount st f := by
  unfold FilmRepository.getFilmsCount FilmRepository.matchingFilms
  rw [filmMatches_normalize]

theorem find?_none_of_filmExists_false {st : DBState} {filmID : Int}
    (h : filmExists st filmID = false) :
    st.films.find? (fun r => r.filmID == filmID) = none := by
  unfold filmExists at h
  rw [List.find?_eq_none]
  intro x hx
  simp only [List.any_eq_false] at h
  exact h x hx

theorem validateFilters_page_iff (f : FilmFilters) :
    validateFilters f = some "page must be greater than 0" ↔ f.Page < 1 := by
  unfold validateFilters
  split_ifs with h1 h2 h3 h4 <;> simp_all

theorem validateFilters_limit_iff (f : FilmFilters) :
    validateFilters f = some "limit must be between 1 and 100" ↔
      1 ≤ f.Page ∧ (f.Limit < 1 ∨ 100 < f.Limit) := by
  unfold validateFilters
  split_ifs with h1 h2 h3 h4 <;> simp_all <;> omega

theorem validateFilters_rating_iff (f : FilmFilters) :
    validateFilters f = some "invalid rating provided" ↔
      1 ≤ f.Page ∧ 1 ≤ f.Limit ∧ f.Limit ≤ 100 ∧ f.Rating ≠ "" ∧
        validRating f.Rating = false := by
  unfold validateFilters
  split_ifs with h1 h2 h3 h4 <;> simp_all <;> omega

theorem validateFilters_none_iff (f : FilmFilters) :
    validateFilters f = none ↔
      1 ≤ f.Page ∧ 1 ≤ f.Limit ∧ f.Limit ≤ 100 ∧
        (f.Rating = "" ∨ validRating f.Rating = true) := by
  unfold validateFilters
  split_ifs with h1 h2 h3 h4 <;> simp_all <;> omega

theorem validRating_iff (r : String) :
    validRating r = true ↔
      r = "G" ∨ r = "PG" ∨ r = "PG-13" ∨ r = "R" ∨ r = "NC-17" := by
  simp only [validRating, Bool.or_eq_true, beq_iff_eq]
  tauto

/-! ### Claim C1 -/

/-- Claim C1: the film service validates the filters exactly as given —
`Page < 1` or `Limit` outside `[1,100]` yields the validation error
without consulting the repository — and the default substitution of
`applyDefaultPagination` runs only after validation passes, where it
is a no-op. -/
theorem serviceGetFilms_validates_before_defaults
    (repo repo2 : FilmFilters → Except GoError FilmListResponse)
    (f : FilmFilters) :
    (f.Page < 1 ∨ f.Limit < 1 ∨ 100 < f.Limit →
      (∃ m, FilmService.GetFilms repo f = .error (.errNew m) ∧
        validateFilters f = some m) ∧
      FilmService.GetFilms repo f = FilmService.GetFilms repo2 f) ∧
    (validateFilters f = none →
      applyDefaultPagination f = f ∧
      FilmService.GetFilms repo f = repo f) := by
  constructor
  · intro hbad
    have hvf : validateFilters f ≠ none := by
      intro h
      rw [validateFilters_none_iff] at h
      rcases hbad with h1 | h1 | h1 <;> omega
    obtain ⟨m, hm⟩ := Option.ne_none_iff_exists'.mp hvf
    refine ⟨⟨m, ?_, hm⟩, ?_⟩
    · simp [FilmService.GetFilms, hm]
    · simp [FilmService.GetFilms, hm]
  · intro hok
    have hb := (validateFilters_none_iff f).mp hok
    have hdef : applyDefaultPagination f = f := by
      unfold applyDefaultPagination
      have h1 : ¬ f.Page ≤ 0 := by omega
      have h2 : ¬ f.Limit ≤ 0 := by omega
      simp [h1, h2]
    refine ⟨hdef, ?_⟩
    simp [FilmService.GetFilms, hok, hdef]

/-- Witness for C1: with `Page = 0` the service returns the same
result whatever the repository answers — the repository is never
consulted. -/
theorem serviceGetFilms_validates_before_defaults_witness :
    FilmService.GetFilms (fun _ => .ok ⟨[], 0, 1, 10⟩)
        ⟨"", "", "", 0, 10⟩ =
      FilmService.GetFilms (fun _ => .error (.errNew "db down"))
        ⟨"", "", "", 0, 10⟩ :=
  ((serviceGetFilms_validates_before_defaults _ _ _).1
    (Or.inl (by decide))).2

/-! ### Claim C6 -/

/-- Claim C6: exact characterization of the film service's
validation errors — "page must be greater than 0" exactly when
`Page < 1`; "limit must be between 1 and 100" exactly when the page
is in range and the limit is not; "invalid rating provided" exactly
when page and limit are in range and the rating is non-empty and
outside the five-element set; empty ratings are accepted. -/
theorem validateFilters_error_cases (f : FilmFilters) :
    (validateFilters f = some "page must be greater than 0" ↔
      f.Page < 1) ∧
    (validateFilters f = some "limit must be between 1 and 100" ↔
      1 ≤ f.Page ∧ (f.Limit < 1 ∨ 100 < f.Limit)) ∧
    (validateFilters f = some "invalid rating provided" ↔
      1 ≤ f.Page ∧ 1 ≤ f.Limit ∧ f.Limit ≤ 100 ∧ f.Rating ≠ "" ∧
        ¬ (f.Rating = "G" ∨ f.Rating = "PG" ∨ f.Rating = "PG-13" ∨
            f.Rating = "R" ∨ f.Rating = "NC-17")) ∧
    (validateFilters f = none ↔
      1 ≤ f.Page ∧ 1 ≤ f.Limit ∧ f.Limit ≤ 100 ∧
        (f.Rating = "" ∨ f.Rating = "G" ∨ f.Rating = "PG" ∨
          f.Rating = "PG-13" ∨ f.Rating = "R" ∨ f.Rating = "NC-17")) := by
  have hv := validRating_iff f.Rating
  refine ⟨validateFilters_page_iff f, validateFilters_limit_iff f, ?_, ?_⟩
  · rw [validateFilters_rating_iff]
    constructor
    · rintro ⟨hp, hl1, hl2, hr, hvf⟩
      exact ⟨hp, hl1, hl2, hr, fun hmem => by simp [hv.mpr hmem] at hvf⟩
    · rintro ⟨hp, hl1, hl2, hr, hmem⟩
      refine ⟨hp, hl1, hl2, hr, ?_⟩
      cases hvr : validRating f.Rating
      · rfl
      · exact absurd (hv.mp hvr) hmem
  · rw [validateFilters_none_iff]
    constructor
    · rintro ⟨hp, hl1, hl2, hr | hr⟩
      · exact ⟨hp, hl1, hl2, Or.inl hr⟩
      · rcases hv.mp hr with h | h | h | h | h <;> tauto
    · rintro ⟨hp, hl1, hl2, hr | hr⟩
      · exact ⟨hp, hl1, hl2, Or.inl hr⟩
      · exact ⟨hp, hl1, hl2, Or.inr (hv.mpr (by tauto))⟩

/-! ### Claim C7 (corrected) -/

/-- Counterexample to C7: the film-listing request `?limit=101` fails
the service's validation, yet the handler answers 500, not 400 —
`FilmHandler.GetFilms` maps every service error to
`http.StatusInternalServerError`. -/
theorem handlerGetFilms_validation_gives_500 :
    validateFilters (parseFilmFilters ⟨"", "", "", "", "101"⟩) =
      some "limit must be between 1 and 100" ∧
    handlerGetFilmsStatus (fun _ => .ok ⟨[], 0, 1, 10⟩)
      ⟨"", "", "", "", "101"⟩ = 500 ∧
    (500 : Nat) ≠ 400 :=
  ⟨by decide, by decide, by decide⟩

/-- Claim C7 amended: validation errors detected by the handler
itself (here: a non-numeric path id) are surfaced as 400, but a
film-listing request whose filters fail the service's validation is
surfaced as 500, because `FilmHandler.GetFilms` maps every service
error to the internal-server-error status. -/
theorem handlerStatus_validation_mapping
    (repo : FilmFilters → Except GoError FilmListResponse)
    (svc : Int → Except GoError FilmRow) (q : QueryParams)
    (idStr : String) (m : String) :
    (validateFilters (parseFilmFilters q) = some m →
      handlerGetFilmsStatus repo q = 500) ∧
    (goAtoi idStr = none → handlerGetFilmByIDStatus svc idStr = 400) := by
  constructor
  · intro hm
    unfold handlerGetFilmsStatus FilmService.GetFilms
    rw [hm]
  · intro hn
    unfold handlerGetFilmByIDStatus
    rw [hn]

/-- Witness for the amended C7: the `?limit=101` request is answered
with 500 even when the repository would have succeeded. -/
theorem handlerStatus_validation_mapping_witness :
    handlerGetFilmsStatus (fun _ => .ok ⟨[], 0, 1, 10⟩)
      ⟨"", "", "", "", "101"⟩ = 500 :=
  (handlerStatus_validation_mapping (fun _ => .ok ⟨[], 0, 1, 10⟩)
      (fun _ => .ok ⟨1, "t", "G"⟩) ⟨"", "", "", "", "101"⟩ "7"
      "limit must be between 1 and 100").1 (by decide)

/-! ### Claim C2 (corrected) -/

theorem wrap64_eq_of_range (v : Int) (h1 : -(2 ^ 63) ≤ v)
    (h2 : v ≤ 2 ^ 63 - 1) : FilmRepository.wrap64 v = v := by
  unfold FilmRepository.wrap64
  omega

theorem matchingFilms_normalize (st : DBState) (f : FilmFilters) :
    FilmRepository.matchingFilms st (FilmRepository.normalizePagination f) =
      FilmRepository.matchingFilms st f := by
  unfold FilmRepository.matchingFilms
  rw [filmMatches_normalize]

theorem getFilmsCount_pagination_invariant (st : DBState) (f : FilmFilters)
    (p l : Int) :
    FilmRepository.getFilmsCount st { f with Page := p, Limit := l } =
      FilmRepository.getFilmsCount st f := by
  unfold FilmRepository.getFilmsCount FilmRepository.matchingFilms
  rw [filmMatches_pagination_invariant]

theorem buildFilmsQueryResult_neg (st : DBState) (f : FilmFilters)
    (h : FilmRepository.queryOffset f < 0) :
    FilmRepository.buildFilmsQueryResult st f =
      .error (.wrapf "error querying films"
        (.errNew "pq: OFFSET must not be negative")) := by
  unfold FilmRepository.buildFilmsQueryResult
  rw [if_pos h]

theorem buildFilmsQueryResult_nonneg (st : DBState) (f : FilmFilters)
    (h : 0 ≤ FilmRepository.queryOffset f) :
    FilmRepository.buildFilmsQueryResult st f =
      .ok (((FilmRepository.sortByTitle (FilmRepository.distinctRows
        (FilmRepository.matchingFilms st f))).drop
          (FilmRepository.queryOffset f).toNat).take f.Limit.toNat) := by
  unfold FilmRepository.buildFilmsQueryResult
  rw [if_neg (not_lt.mpr h)]

/-- On a non-negative wrapped offset, `GetFilms` succeeds with the
slice of the title-sorted distinct matching films and the distinct
matching count. -/
theorem getFilms_ok_eq (st : DBState) (f : FilmFilters)
    (h : 0 ≤ FilmRepository.queryOffset (FilmRepository.normalizePagination f)) :
    FilmRepository.GetFilms st f = .ok {
      Films := ((FilmRepository.sortByTitle (FilmRepository.distinctRows
          (FilmRepository.matchingFilms st f))).drop
        (FilmRepository.queryOffset
          (FilmRepository.normalizePagination f)).toNat).take
        (FilmRepository.normalizePagination f).Limit.toNat
      Total := (FilmRepository.getFilmsCount st f : Int)
      Page := (FilmRepository.normalizePagination f).Page
      Limit := (FilmRepository.normalizePagination f).Limit } := by
  unfold FilmRepository.GetFilms
  dsimp only
  rw [buildFilmsQueryResult_nonneg st (FilmRepository.normalizePagination f) h,
    matchingFilms_normalize, getFilmsCount_normalize]

/-- On a negative wrapped offset, the query fails and `GetFilms`
returns the wrapped driver error. -/
theorem getFilms_err_eq (st : DBState) (f : FilmFilters)
    (h : FilmRepository.queryOffset (FilmRepository.normalizePagination f) < 0) :
    FilmRepository.GetFilms st f =
      .error (.wrapf "error querying films"
        (.errNew "pq: OFFSET must not be negative")) := by
  unfold FilmRepository.GetFilms
  dsimp only
  rw [buildFilmsQueryResult_neg st (FilmRepository.normalizePagination f) h]

theorem getFilms_ok_total (st : DBState) (f : FilmFilters)
    (r : FilmListResponse) (h : FilmRepository.GetFilms st f = .ok r) :
    r.Total = (FilmRepository.getFilmsCount st f : Int) := by
  by_cases hoff : FilmRepository.queryOffset
      (FilmRepository.normalizePagination f) < 0
  · rw [getFilms_err_eq st f hoff] at h
    cases h
  · rw [getFilms_ok_eq st f (by omega)] at h
    simp only [Except.ok.injEq] at h
    rw [← h]

/-- A store with two films, for the C2 counterexample and witness. -/
def stC2 : DBState :=
  ⟨[⟨1, "Test Film 1", "PG"⟩, ⟨2, "Test Film 2", "G"⟩],
    fun _ => [], [], [], 1⟩

/-- Counterexample to C2: the source computes
`offset := (filters.Page - 1) * filters.Limit` in Go's 64-bit `int`
(film_repository.go line 90), which wraps.  At `Page = 2^62 + 1,
Limit = 4` the wrapped offset is 0 and `GetFilms` returns the first
page — both films — while the claim's page at the mathematical
offset `(page-1)*limit = 2^64` is empty; and at `Page = 2^63 - 1,
Limit = 100` the wrapped offset is −200, the query is rejected, and
`GetFilms` returns an error instead of any `Total` at all. -/
theorem repoGetFilms_offset_wrap_counterexample :
    FilmRepository.GetFilms stC2 ⟨"", "", "", 2 ^ 62 + 1, 4⟩ =
      .ok { Films := [⟨1, "Test Film 1", "PG"⟩, ⟨2, "Test Film 2", "G"⟩],
            Total := 2, Page := 2 ^ 62 + 1, Limit := 4 } ∧
    ((FilmRepository.sortByTitle (FilmRepository.distinctRows
        (FilmRepository.matchingFilms stC2 ⟨"", "", "", 2 ^ 62 + 1, 4⟩))).drop
      (((2 ^ 62 + 1 - 1 : Int)) * 4).toNat).take ((4 : Int)).toNat = [] ∧
    ([(⟨1, "Test Film 1", "PG"⟩ : FilmRow), ⟨2, "Test Film 2", "G"⟩] :
      List FilmRow) ≠ [] ∧
    FilmRepository.GetFilms stC2 ⟨"", "", "", 2 ^ 63 - 1, 100⟩ =
      .error (.wrapf "error querying films"
        (.errNew "pq: OFFSET must not be negative")) :=
  ⟨by decide, by decide, by decide, by decide⟩

/-- Claim C2 amended: whenever the repository's `GetFilms` succeeds
it returns at most `Limit` films, its `Total` is the number of
distinct films matching the title/rating/category predicates over
the whole store — independent of the page and limit — and the page
is the slice of the title-sorted distinct matching films at the
int64-wrapped offset `(page-1)*limit`; when that product does not
overflow int64 the original description holds verbatim (the offset
is the mathematical `(page-1)*limit`); when the wrapped offset is
negative, `GetFilms` fails with the wrapped driver error instead. -/
theorem repoGetFilms_wrapped_pagination (st : DBState) (f : FilmFilters) :
    (∀ r, FilmRepository.GetFilms st f = .ok r →
      ((r.Films.length : Int) ≤ r.Limit ∧
       r.Total = (FilmRepository.getFilmsCount st f : Int) ∧
       r.Films =
         ((FilmRepository.sortByTitle (FilmRepository.distinctRows
             (FilmRepository.matchingFilms st f))).drop
           (FilmRepository.queryOffset
             (FilmRepository.normalizePagination f)).toNat).take
           (FilmRepository.normalizePagination f).Limit.toNat ∧
       List.Pairwise FilmRepository.titleLe r.Films)) ∧
    (∀ (p l : Int) (r r2 : FilmListResponse),
      FilmRepository.GetFilms st { f with Page := p, Limit := l } = .ok r →
      FilmRepository.GetFilms st f = .ok r2 →
      r.Total = r2.Total) ∧
    (((FilmRepository.normalizePagination f).Page - 1) *
        (FilmRepository.normalizePagination f).Limit ≤ 2 ^ 63 - 1 →
      FilmRepository.GetFilms st f = .ok {
        Films := ((FilmRepository.sortByTitle (FilmRepository.distinctRows
            (FilmRepository.matchingFilms st f))).drop
          (((FilmRepository.normalizePagination f).Page - 1) *
            (FilmRepository.normalizePagination f).Limit).toNat).take
          (FilmRepository.normalizePagination f).Limit.toNat
        Total := (FilmRepository.getFilmsCount st f : Int)
        Page := (FilmRepository.normalizePagination f).Page
        Limit := (FilmRepository.normalizePagination f).Limit }) ∧
    (FilmRepository.queryOffset (FilmRepository.normalizePagination f) < 0 →
      FilmRepository.GetFilms st f =
        .error (.wrapf "error querying films"
          (.errNew "pq: OFFSET must not be negative"))) := by
  have hbounds := normalizePagination_bounds f
  refine ⟨?_, ?_, ?_, getFilms_err_eq st f⟩
  · intro r hr
    by_cases hoff : FilmRepository.queryOffset
        (FilmRepository.normalizePagination f) < 0
    · rw [getFilms_err_eq st f hoff] at hr
      cases hr
    · rw [getFilms_ok_eq st f (by omega)] at hr
      simp only [Except.ok.injEq] at hr
      subst hr
      refine ⟨?_, rfl, rfl, ?_⟩
      · have hlen := List.length_take_le
          (FilmRepository.normalizePagination f).Limit.toNat
          ((FilmRepository.sortByTitle (FilmRepository.distinctRows
              (FilmRepository.matchingFilms st f))).drop
            (FilmRepository.queryOffset
              (FilmRepository.normalizePagination f)).toNat)
        have hcast : ((FilmRepository.normalizePagination f).Limit.toNat :
            Int) = (FilmRepository.normalizePagination f).Limit :=
          Int.toNat_of_nonneg (by omega)
        show ((List.take _ _).length : Int) ≤
          (FilmRepository.normalizePagination f).Limit
        omega
      · have hs := sortByTitle_pairwise (FilmRepository.distinctRows
          (FilmRepository.matchingFilms st f))
        exact hs.sublist
          ((List.take_sublist _ _).trans (List.drop_sublist _ _))
  · intro p l r r2 h1 h2
    rw [getFilms_ok_total st _ r h1, getFilms_ok_total st f r2 h2,
      getFilmsCount_pagination_invariant]
  · intro hle
    have hnn : 0 ≤ ((FilmRepository.normalizePagination f).Page - 1) *
        (FilmRepository.normalizePagination f).Limit :=
      mul_nonneg (by omega) (by omega)
    have hwrap : FilmRepository.queryOffset
        (FilmRepository.normalizePagination f) =
        ((FilmRepository.normalizePagination f).Page - 1) *
          (FilmRepository.normalizePagination f).Limit := by
      unfold FilmRepository.queryOffset
      exact wrap64_eq_of_range _ (by omega) hle
    rw [getFilms_ok_eq st f (by omega), hwrap]

/-- Witness for the amended C2: on the two-film store, page 1 with
limit 5 — where the offset computation does not overflow — returns
both films in title order with `Total = 2`. -/
theorem repoGetFilms_wrapped_pagination_witness :
    FilmRepository.GetFilms stC2 ⟨"", "", "", 1, 5⟩ =
      .ok { Films := [⟨1, "Test Film 1", "PG"⟩, ⟨2, "Test Film 2", "G"⟩],
            Total := 2, Page := 1, Limit := 5 } := by
  rw [(repoGetFilms_wrapped_pagination stC2 ⟨"", "", "", 1, 5⟩).2.2.1
    (by decide)]
  decide

/-! ### Claim C9 -/

/-- Claim C9: `GetCategories` is deterministic over an unchanged
store — it is a pure function of the category table, unaffected by
the only write operation of the system (`AddComment`) — and every
returned list contains all categories, ordered by name. -/
theorem getCategories_deterministic_sorted (st : DBState) :
    (FilmRepository.GetCategories st).Perm st.categories ∧
    List.Pairwise FilmRepository.catLe (FilmRepository.GetCategories st) ∧
    (∀ (filmID : Int) (req : CommentRequest) (now : Int),
      FilmRepository.GetCategories
          (CommentRepository.AddComment st filmID req now).2 =
        FilmRepository.GetCategories st) := by
  refine ⟨List.perm_insertionSort _ _, getCategories_pairwise st, ?_⟩
  intro filmID req now
  unfold CommentRepository.AddComment
  split <;> rfl

/-! ### Claim C3 -/

theorem wrapAll_isNotFound (msgs : List String) (e : GoError) :
    (wrapAll msgs e).isNotFound = e.isNotFound := by
  induction msgs with
  | nil => rfl
  | cons m ms ih => simpa [wrapAll, GoError.isNotFound] using ih

/-- Every error produced by `GetFilmByIDQ` is either the sentinel
(produced exactly on the no-row outcome) or a contextual wrap of a
driver failure. -/
theorem getFilmByIDQ_error_shape (env : FilmQueryEnv) (filmID : Int)
    (e : GoError)
    (he : FilmRepository.GetFilmByIDQ env filmID = .error e) :
    (env.filmRow filmID = .noRows ∧ e = .filmNotFound) ∨
    (∃ e0, (env.filmRow filmID = .scanFail e0 ∨
        env.catRows filmID = .error e0 ∨
        env.actorRows filmID = .error e0) ∧
      ∃ m, e = .wrapf m e0) := by
  unfold FilmRepository.GetFilmByIDQ FilmRepository.getFilmCategoriesQ
    FilmRepository.getFilmActorsQ at he
  cases hfr : env.filmRow filmID <;> rw [hfr] at he
  case found film =>
    cases hc : env.catRows filmID <;> rw [hc] at he
    case error ec =>
      right
      simp only [Except.error.injEq] at he
      exact ⟨ec, Or.inr (Or.inl rfl), _, he.symm⟩
    case ok cats =>
      cases ha : env.actorRows filmID <;> rw [ha] at he
      case error ea =>
        right
        simp only [Except.error.injEq] at he
        exact ⟨ea, Or.inr (Or.inr rfl), _, he.symm⟩
      case ok acts => cases he
  case noRows =>
    left
    simp only [Except.error.injEq] at he
    exact ⟨rfl, he.symm⟩
  case scanFail e0 =>
    right
    simp only [Except.error.injEq] at he
    exact ⟨e0, Or.inl rfl, _, he.symm⟩

/-- Claim C3: when no film row matches, `GetFilmByID` fails with the
`ErrFilmNotFound` sentinel; the sentinel is recognized through any
chain of contextual wrapping by identity (`errors.Is`), not by
message text — a fresh error carrying the same text is not the
sentinel; and every other query failure comes back as a contextual
wrap that `errors.Is` does not mistake for the sentinel.  The
hypothesis states that driver-level failures are never the sentinel
value itself. -/
theorem getFilmByID_sentinel (env : FilmQueryEnv) (filmID : Int)
    (henv : ∀ (i : Int) (e : GoError),
      env.filmRow i = .scanFail e ∨ env.catRows i = .error e ∨
        env.actorRows i = .error e → e.isNotFound = false) :
    (env.filmRow filmID = .noRows →
      FilmRepository.GetFilmByIDQ env filmID = .error .filmNotFound) ∧
    (∀ e, FilmRepository.GetFilmByIDQ env filmID = .error e →
      (e.isNotFound = true ↔ env.filmRow filmID = .noRows)) ∧
    (∀ e, FilmRepository.GetFilmByIDQ env filmID = .error e →
      e ≠ .filmNotFound → e.isWrapped = true ∧ e.isNotFound = false) ∧
    (∀ (e : GoError) (msgs : List String),
      (wrapAll msgs e).isNotFound = e.isNotFound) ∧
    GoError.isNotFound (.errNew "film not found") = false := by
  refine ⟨?_, ?_, ?_, fun e msgs => wrapAll_isNotFound msgs e, rfl⟩
  · intro h
    unfold FilmRepository.GetFilmByIDQ
    rw [h]
  · intro e he
    constructor
    · intro hnf
      rcases getFilmByIDQ_error_shape env filmID e he with
        ⟨hrow, _⟩ | ⟨e0, hsrc, m, hwrap⟩
      · exact hrow
      · have h0 := henv filmID e0 hsrc
        rw [hwrap] at hnf
        simp [GoError.isNotFound, h0] at hnf
    · intro hrow
      have h1 : FilmRepository.GetFilmByIDQ env filmID =
          .error .filmNotFound := by
        unfold FilmRepository.GetFilmByIDQ
        rw [hrow]
      rw [h1] at he
      simp only [Except.error.injEq] at he
      rw [← he]
      rfl
  · intro e he hne
    rcases getFilmByIDQ_error_shape env filmID e he with
      ⟨_, hfn⟩ | ⟨e0, hsrc, m, hwrap⟩
    · exact absurd hfn hne
    · have h0 := henv filmID e0 hsrc
      subst hwrap
      exact ⟨rfl, by simp [GoError.isNotFound, h0]⟩

/-- A driver environment in which the film lookup finds no row. -/
def envNoFilm : FilmQueryEnv :=
  ⟨fun _ => .noRows, fun _ => .ok [], fun _ => .ok []⟩

/-- Witness for C3: looking up id 99999 in a store without it yields
exactly the sentinel. -/
theorem getFilmByID_sentinel_witness :
    FilmRepository.GetFilmByIDQ envNoFilm 99999 = .error .filmNotFound :=
  (getFilmByID_sentinel envNoFilm 99999
    (fun i e h => by
      rcases h with h | h | h <;> simp [envNoFilm] at h)).1 rfl

/-! ### Claim C4 (corrected) -/

/-- An empty store: no films, no comments. -/
def st0c : DBState := ⟨[], fun _ => [], [], [], 1⟩

/-- A valid comment request. -/
def req0c : CommentRequest := ⟨"John Doe", "Great movie!"⟩

/-- Counterexample to C4: `filmID = 0` references no existing film
and the request is valid, yet the service's `AddComment` fails with
`"invalid film ID"` — not the film-not-found condition — because the
non-positive-id check runs before the existence check.  (No insert
happens either way.) -/
theorem serviceAddComment_id_gate_counterexample :
    filmExists st0c 0 = false ∧
    validateComment req0c = none ∧
    (CommentService.AddComment st0c 0 req0c 5).1 =
      .error (.errNew "invalid film ID") ∧
    (CommentService.AddComment st0c 0 req0c 5).1 ≠
      .error .filmNotFound ∧
    (CommentService.AddComment st0c 0 req0c 5).2 = st0c :=
  ⟨by decide, by decide, by decide, by decide, rfl⟩

/-- Claim C4 amended: for every *positive* `filmID` that references
no existing film and every valid request, the service's `AddComment`
fails with the film-not-found condition and performs no insert; the
repository's `AddComment` does so for every absent `filmID`
whatsoever; a non-positive `filmID` is instead rejected by the
service with `"invalid film ID"`, still without touching the
store. -/
theorem addComment_absent_film_no_insert (st : DBState) (filmID : Int)
    (req : CommentRequest) (now : Int) :
    (filmExists st filmID = false →
      CommentRepository.AddComment st filmID req now =
        (.error .filmNotFound, st)) ∧
    (1 ≤ filmID → filmExists st filmID = false →
      validateComment req = none →
      CommentService.AddComment st filmID req now =
        (.error .filmNotFound, st)) ∧
    (filmID ≤ 0 →
      CommentService.AddComment st filmID req now =
        (.error (.errNew "invalid film ID"), st)) := by
  refine ⟨?_, ?_, ?_⟩
  · intro habs
    simp [CommentRepository.AddComment, habs]
  · intro hpos habs hval
    have hid : ¬ filmID ≤ 0 := by omega
    simp only [CommentService.AddComment, if_neg hid, hval]
    rw [FilmRepository.GetFilmByIDDB, find?_none_of_filmExists_false habs]
  · intro hid
    simp [CommentService.AddComment, hid]

/-- Witness for the amended C4: adding a comment for the absent film
id 7 in the empty store fails with the sentinel and leaves the store
unchanged. -/
theorem addComment_absent_film_no_insert_witness :
    CommentService.AddComment st0c 7 req0c 3 =
      (.error .filmNotFound, st0c) :=
  (addComment_absent_film_no_insert st0c 7 req0c 3).2.1
    (by decide) (by decide) (by decide)

/-! ### Claim C5 (corrected) -/

/-- A 101-byte customer name. -/
def longName101 : String := String.mk (List.replicate 101 'a')

/-- A request whose only flaw is the over-long customer name. -/
def req101 : CommentRequest := ⟨longName101, "ok"⟩

/-- Counterexample to C5: when the name-length check fires, the
returned error is `"customer name too long (max 100 characters)"`,
not the bare `"customer name too long"` the claim names (the
analogous comment-length message also carries a `(max 1000
characters)` suffix). -/
theorem validateComment_message_counterexample :
    req101.customerName ≠ "" ∧
    goLen req101.customerName = 101 ∧
    validateComment req101 =
      some "customer name too long (max 100 characters)" ∧
    validateComment req101 ≠ some "customer name too long" :=
  ⟨by decide, by decide, by decide, by decide⟩

/-- Claim C5 amended: the comment validation runs its checks in the
fixed order name-empty, name-length (Go `len`, i.e. bytes, over
100), comment-empty, comment-length (over 1000); the first failing
check determines the error, whose messages are
`"customer name is required"`,
`"customer name too long (max 100 characters)"`,
`"comment text is required"`,
`"comment text too long (max 1000 characters)"`; a request with
non-empty name of at most 100 bytes and non-empty comment of at most
1000 bytes passes. -/
theorem validateComment_order_and_messages (req : CommentRequest) :
    (validateComment req = none ↔
      req.customerName ≠ "" ∧ goLen req.customerName ≤ 100 ∧
      req.comment ≠ "" ∧ goLen req.comment ≤ 1000) ∧
    (req.customerName = "" →
      validateComment req = some "customer name is required") ∧
    (req.customerName ≠ "" → 100 < goLen req.customerName →
      validateComment req =
        some "customer name too long (max 100 characters)") ∧
    (req.customerName ≠ "" → goLen req.customerName ≤ 100 →
      req.comment = "" →
      validateComment req = some "comment text is required") ∧
    (req.customerName ≠ "" → goLen req.customerName ≤ 100 →
      req.comment ≠ "" → 1000 < goLen req.comment →
      validateComment req =
        some "comment text too long (max 1000 characters)") := by
  unfold validateComment
  split_ifs with h1 h2 h3 h4 <;> simp_all <;> omega

/-- Witness for the amended C5: a well-formed request passes
validation. -/
theorem validateComment_order_witness :
    validateComment ⟨"John Doe", "Great movie!"⟩ = none :=
  (validateComment_order_and_messages ⟨"John Doe", "Great movie!"⟩).1.mpr
    (by refine ⟨by decide, by decide, by decide, by decide⟩)

/-! ### Claim C8 -/

/-- Claim C8: for a `filmID` with an existing film,
`GetCommentsByFilmID` succeeds and returns exactly the stored
comments of that film (a permutation of the store's rows for the
film), ordered by creation timestamp descending; for an absent
`filmID` it fails with the film-not-found condition. -/
theorem getCommentsByFilmID_spec (st : DBState) (filmID : Int) :
    (filmExists st filmID = false →
      CommentRepository.GetCommentsByFilmID st filmID =
        .error .filmNotFound) ∧
    (filmExists st filmID = true →
      CommentRepository.GetCommentsByFilmID st filmID =
        .ok (List.insertionSort CommentRepository.createdDesc
          (st.comments.filter (fun c => c.filmID == filmID)))) ∧
    (∀ l, CommentRepository.GetCommentsByFilmID st filmID = .ok l →
      l.Perm (st.comments.filter (fun c => c.filmID == filmID)) ∧
      List.Pairwise CommentRepository.createdDesc l ∧
      ∀ c ∈ l, c.filmID = filmID) := by
  refine ⟨?_, ?_, ?_⟩
  · intro habs
    simp [CommentRepository.GetCommentsByFilmID, habs]
  · intro hex
    simp [CommentRepository.GetCommentsByFilmID, hex]
  · intro l hl
    unfold CommentRepository.GetCommentsByFilmID at hl
    by_cases hex : filmExists st filmID
    · rw [if_pos hex] at hl
      simp only [Except.ok.injEq] at hl
      subst hl
      refine ⟨List.perm_insertionSort _ _, sortComments_pairwise _, ?_⟩
      intro c hc
      have hc2 : c ∈ st.comments.filter (fun c => c.filmID == filmID) :=
        (List.perm_insertionSort _ _).mem_iff.mp hc
      have := (List.mem_filter.mp hc2).2
      exact beq_iff_eq.mp this
    · rw [if_neg hex] at hl
      cases hl

/-- A store with one film and two comments on it, created at clock
values 5 and 9. -/
def stC8 : DBState :=
  ⟨[⟨1, "ACADEMY DINOSAUR", "PG"⟩], fun _ => [], [],
    [⟨1, 1, "Ann", "fine", 5⟩, ⟨2, 1, "Bob", "great", 9⟩], 3⟩

/-- Witness for C8: the two stored comments come back newest
first. -/
theorem getCommentsByFilmID_spec_witness :
    CommentRepository.GetCommentsByFilmID stC8 1 =
      .ok [⟨2, 1, "Bob", "great", 9⟩, ⟨1, 1, "Ann", "fine", 5⟩] := by
  rw [(getCommentsByFilmID_spec stC8 1).2.1 (by decide)]
  decide

/-! ### Claim C10 -/

/-- Claim C10: the `FilmFilters` value the film-listing handler
passes to the service always has `Page ≥ 1` and `Limit ≥ 1` —
missing, non-numeric or non-positive parameters are replaced by 1
and 10 before the service runs — while a parsed limit above 100 (and
any positive parsed limit) is passed through unchanged; hence the
service's page-validation branch is unreachable from HTTP and its
limit-validation branch remains reachable. -/
theorem handlerFilters_invariant (q : QueryParams) :
    1 ≤ (parseFilmFilters q).Page ∧
    1 ≤ (parseFilmFilters q).Limit ∧
    (q.page = "" ∨ goAtoi q.page = none → (parseFilmFilters q).Page = 1) ∧
    (∀ p, goAtoi q.page = some p → p ≤ 0 →
      (parseFilmFilters q).Page = 1) ∧
    (q.limit = "" ∨ goAtoi q.limit = none →
      (parseFilmFilters q).Limit = 10) ∧
    (∀ l, goAtoi q.limit = some l → l ≤ 0 →
      (parseFilmFilters q).Limit = 10) ∧
    (∀ l, goAtoi q.limit = some l → 0 < l →
      (parseFilmFilters q).Limit = l) ∧
    validateFilters (parseFilmFilters q) ≠
      some "page must be greater than 0" ∧
    (∃ q2, validateFilters (parseFilmFilters q2) =
      some "limit must be between 1 and 100") := by
  have hatoiEmpty : goAtoi "" = none := by decide
  have hpage : ((q.page = "" ∨ goAtoi q.page = none ∨
        (∃ p, goAtoi q.page = some p ∧ p ≤ 0)) ∧
        (parseFilmFilters q).Page = 1) ∨
      (∃ p, goAtoi q.page = some p ∧ 0 < p ∧
        (parseFilmFilters q).Page = p) := by
    unfold parseFilmFilters
    by_cases hqp : q.page = ""
    · left
      exact ⟨Or.inl hqp, by simp [hqp]⟩
    · cases hg : goAtoi q.page with
      | none =>
        left
        exact ⟨Or.inr (Or.inl rfl), by simp [hqp, hg]⟩
      | some p =>
        by_cases hp0 : p > 0
        · right
          exact ⟨p, rfl, hp0, by simp [hqp, hg, hp0]⟩
        · left
          exact ⟨Or.inr (Or.inr ⟨p, rfl, by omega⟩), by simp [hqp, hg, hp0]⟩
  have hlim : ((q.limit = "" ∨ goAtoi q.limit = none ∨
        (∃ l, goAtoi q.limit = some l ∧ l ≤ 0)) ∧
        (parseFilmFilters q).Limit = 10) ∨
      (∃ l, goAtoi q.limit = some l ∧ 0 < l ∧
        (parseFilmFilters q).Limit = l) := by
    unfold parseFilmFilters
    by_cases hql : q.limit = ""
    · left
      exact ⟨Or.inl hql, by simp [hql]⟩
    · cases hg : goAtoi q.limit with
      | none =>
        left
        exact ⟨Or.inr (Or.inl rfl), by simp [hql, hg]⟩
      | some l =>
        by_cases hl0 : l > 0
        · right
          exact ⟨l, rfl, hl0, by simp [hql, hg, hl0]⟩
        · left
          exact ⟨Or.inr (Or.inr ⟨l, rfl, by omega⟩), by simp [hql, hg, hl0]⟩
  have hpge : 1 ≤ (parseFilmFilters q).Page := by
    rcases hpage with ⟨_, h⟩ | ⟨p, _, hp, h⟩ <;> omega
  have hlge : 1 ≤ (parseFilmFilters q).Limit := by
    rcases hlim with ⟨_, h⟩ | ⟨l, _, hl, h⟩ <;> omega
  refine ⟨hpge, hlge, ?_, ?_, ?_, ?_, ?_, ?_, ?_⟩
  · intro hmiss
    have hnone : goAtoi q.page = none := by
      rcases hmiss with h | h
      · rw [h]; exact hatoiEmpty
      · exact h
    rcases hpage with ⟨_, h⟩ | ⟨p, hp, _, _⟩
    · exact h
    · rw [hnone] at hp; cases hp
  · intro p hp hple
    rcases hpage with ⟨_, h⟩ | ⟨p2, hp2, hpos, _⟩
    · exact h
    · rw [hp] at hp2
      injection hp2 with h2
      omega
  · intro hmiss
    have hnone : goAtoi q.limit = none := by
      rcases hmiss with h | h
      · rw [h]; exact hatoiEmpty
      · exact h
    rcases hlim with ⟨_, h⟩ | ⟨l, hl, _, _⟩
    · exact h
    · rw [hnone] at hl; cases hl
  · intro l hl hle
    rcases hlim with ⟨_, h⟩ | ⟨l2, hl2, hpos, _⟩
    · exact h
    · rw [hl] at hl2
      injection hl2 with h2
      omega
  · intro l hl hpos
    rcases hlim with ⟨hmiss, _⟩ | ⟨l2, hl2, _, h⟩
    · rcases hmiss with h | h | ⟨l2, hl2, hle⟩
      · rw [h, hatoiEmpty] at hl; cases hl
      · rw [h] at hl; cases hl
      · rw [hl] at hl2
        injection hl2 with h2
        omega
    · rw [hl] at hl2
      injection hl2 with h2
      rw [h, ← h2]
  · intro hcontra
    rw [validateFilters_page_iff] at hcontra
    omega
  · exact ⟨⟨"", "", "", "", "101"⟩, by decide⟩

/-- Witness for C10: the parsed limit of a `?limit=101` request is
passed through to the service unchanged. -/
theorem handlerFilters_invariant_witness :
    (parseFilmFilters ⟨"", "", "", "", "101"⟩).Limit = 101 :=
  (handlerFilters_invariant ⟨"", "", "", "", "101"⟩).2.2.2.2.2.2.1 101
    (by decide) (by decide)

end Mockbuster
